import Mathlib

/-!
Verification of the SIIF ingestion pipeline against its specification.

The Python sources are shallowly embedded here:
* `src/app/utils/excel_parser.py` : account-code decoder, header detection,
  date-likeness test;
* `src/app/services/excel_reader.py` : layout-sniffing sheet reader and
  column-role classifier;
* `src/app/services/data_processor.py` : running-balance calculator and the
  multi-file orchestrator.

Cells of a raw grid are `Option String` (pandas reads with `dtype=str`, so a
cell is either missing (`none`) or text).  Python string helpers (`strip`,
`upper`, `lower`, `in`, `split`) are modelled at the `List Char` level on the
ASCII fragment that the data exercises.  Monetary text is kept as raw strings
exactly as the reader produces it; numbers entering the balance pass are
modelled as exact rationals.
-/

namespace Siif

/-- Python whitespace test (ASCII fragment of `str.strip`). -/
def isPySpace (c : Char) : Bool :=
  decide (c.toNat = 32) || decide (c.toNat = 9) || decide (c.toNat = 10) ||
  decide (c.toNat = 13) || decide (c.toNat = 11) || decide (c.toNat = 12)

/-- ASCII digit test (`\d` in the source regexes, `str.isdigit` on ASCII). -/
def isDigitB (c : Char) : Bool :=
  decide (48 ≤ c.toNat) && decide (c.toNat ≤ 57)

/-- ASCII fragment of Python `str.upper` applied to one character. -/
def pyToUpper (c : Char) : Char :=
  if 97 ≤ c.toNat ∧ c.toNat ≤ 122 then Char.ofNat (c.toNat - 32) else c

/-- ASCII fragment of Python `str.lower` applied to one character. -/
def pyToLower (c : Char) : Char :=
  if 65 ≤ c.toNat ∧ c.toNat ≤ 90 then Char.ofNat (c.toNat + 32) else c

/-- Python `str.strip` on a character list: drop whitespace at both ends. -/
def pyStrip (l : List Char) : List Char :=
  ((l.dropWhile isPySpace).reverse.dropWhile isPySpace).reverse

/-- Python `str.strip` on a `String`. -/
def strTrim (s : String) : String := ⟨pyStrip s.data⟩

/-- Python `str.upper` on a `String`. -/
def pyUpperS (s : String) : String := ⟨s.data.map pyToUpper⟩

/-- Python `str.lower` on a `String`. -/
def pyLowerS (s : String) : String := ⟨s.data.map pyToLower⟩

/-- Does `pat` occur at the start of `l`?  (list-level `startswith`). -/
def startsWithChars : List Char → List Char → Bool
  | [], _ => true
  | _ :: _, [] => false
  | a :: as, b :: bs => decide (a = b) && startsWithChars as bs

/-- Does `pat` occur anywhere inside `l`?  (Python `pat in s` on lists). -/
def listContains (pat : List Char) : List Char → Bool
  | [] => startsWithChars pat []
  | c :: rest => startsWithChars pat (c :: rest) || listContains pat rest

/-- Python substring test `pat in s`. -/
def containsSub (s pat : String) : Bool := listContains pat.data s.data

/-- Python `c in s` for a single character. -/
def strHasChar (s : String) (c : Char) : Bool := s.data.contains c

/-- Remove every occurrence of one character (`str.replace(c, "")`). -/
def removeChar (c : Char) (l : List Char) : List Char :=
  l.filter (fun x => decide (x ≠ c))

/-- Cell access on a (possibly ragged) row: out-of-range or NaN is `none`. -/
def getCell (row : List (Option String)) (i : Nat) : Option String :=
  row.getD i none

/-!
Account-code decoder — `parse_cuenta_contable` (src/app/utils/excel_parser.py:8)
-/

/-- Characters kept by the decoder's normalization (`[0-9A-Z]`). -/
def isCuentaChar (c : Char) : Bool :=
  (decide (48 ≤ c.toNat) && decide (c.toNat ≤ 57)) ||
  (decide (65 ≤ c.toNat) && decide (c.toNat ≤ 90))

/-- Normalization step of `parse_cuenta_contable`: strip, upper-case, then keep
only `[0-9A-Z]` characters. -/
def normalizeCuenta (s : String) : List Char :=
  ((pyStrip s.data).map pyToUpper).filter isCuentaChar

/-- Right-pad with `'0'` to 21 characters (`str.ljust(21, "0")`). -/
def ljustZeros (l : List Char) : List Char :=
  l ++ List.replicate (21 - l.length) '0'

/-- Fixed-offset slice `s[a:b]` of a character list, as a `String`. -/
def sliceStr (l : List Char) (a b : Nat) : String := ⟨(l.drop a).take (b - a)⟩

/-- The 13 components of a 21-character account code
(`AccountComponents` in the spec's data model). -/
structure CuentaComponentes where
  genero : String
  grupo : String
  rubro : String
  cuenta : String
  subcuenta : String
  dependencia : String
  unidad_responsable : String
  centro_costo : String
  proyecto_presupuestario : String
  fuente : String
  subfuente : String
  tipo_recurso : String
  partida_presupuestal : String
deriving DecidableEq

/-- Embedding of `parse_cuenta_contable` (src/app/utils/excel_parser.py:8):
normalize, right-pad with zeros to 21 characters, slice at fixed offsets. -/
def parse_cuenta_contable (s : String) : CuentaComponentes :=
  let p := ljustZeros (normalizeCuenta s)
  { genero := sliceStr p 0 1
    grupo := sliceStr p 1 2
    rubro := sliceStr p 2 3
    cuenta := sliceStr p 3 4
    subcuenta := sliceStr p 4 5
    dependencia := sliceStr p 5 7
    unidad_responsable := sliceStr p 7 9
    centro_costo := sliceStr p 9 11
    proyecto_presupuestario := sliceStr p 11 13
    fuente := sliceStr p 13 14
    subfuente := sliceStr p 14 16
    tipo_recurso := sliceStr p 16 17
    partida_presupuestal := sliceStr p 17 21 }

/-- Concatenation of the 13 components in field order. -/
def concatComponentes (c : CuentaComponentes) : String :=
  c.genero ++ c.grupo ++ c.rubro ++ c.cuenta ++ c.subcuenta ++ c.dependencia ++
  c.unidad_responsable ++ c.centro_costo ++ c.proyecto_presupuestario ++
  c.fuente ++ c.subfuente ++ c.tipo_recurso ++ c.partida_presupuestal

/-!
Date-likeness — `is_date_like` (src/app/utils/excel_parser.py:75)
-/

/-- All characters are ASCII digits (`\d+` over the whole chunk). -/
def allDigits (l : List Char) : Bool := l.all isDigitB

/-- A digit run whose length lies in `[lo, hi]` (one `\d{lo,hi}` regex part). -/
def numPart (l : List Char) (lo hi : Nat) : Bool :=
  decide (lo ≤ l.length) && decide (l.length ≤ hi) && allDigits l

/-- Split a character list on every occurrence of one separator character. -/
def splitOnChar (sep : Char) : List Char → List (List Char)
  | [] => [[]]
  | c :: rest =>
    match splitOnChar sep rest with
    | [] => [[]]
    | h :: t => if c = sep then [] :: h :: t else (c :: h) :: t

/-- First regex `^\d{1,2}/\d{1,2}/\d{2,4}$` of `is_date_like`. -/
def matchPat1 (s : String) : Bool :=
  match splitOnChar '/' s.data with
  | [a, b, c] => numPart a 1 2 && numPart b 1 2 && numPart c 2 4
  | _ => false

/-- Second regex `^\d{4}-\d{2}-\d{2}$` of `is_date_like`. -/
def matchPat2 (s : String) : Bool :=
  match splitOnChar '-' s.data with
  | [a, b, c] => numPart a 4 4 && numPart b 2 2 && numPart c 2 2
  | _ => false

/-- Third regex `^\d{1,2}-\d{1,2}-\d{2,4}$` of `is_date_like`. -/
def matchPat3 (s : String) : Bool :=
  match splitOnChar '-' s.data with
  | [a, b, c] => numPart a 1 2 && numPart b 1 2 && numPart c 2 4
  | _ => false

/-- The "successfully parses as a date" fallback of `is_date_like`: one of its
three `date_patterns` matches the stripped text. -/
def matchesDatePattern (s : String) : Bool :=
  matchPat1 s || matchPat2 s || matchPat3 s

/-- Embedding of `is_date_like` (src/app/utils/excel_parser.py:75): `none`
models Python `None`; otherwise strip, test for "/" or "-", then fall back to
the three date regexes. -/
def is_date_like (v : Option String) : Bool :=
  match v with
  | none => false
  | some s =>
    let t := strTrim s
    if t == "" then false
    else if strHasChar t '/' || strHasChar t '-' then true
    else matchesDatePattern t

/-!
Python float parsing, used by the column classifier

`_analyze_columns` calls Python `float()` on the cleaned cell text.  We model
the finite-literal grammar `[+-] (digits [. digits] | . digits) [(e|E) [+-]
digits]` exactly, as a signed decimal mantissa and a base-ten exponent; the
`inf`/`nan` spellings and underscore digit separators accepted by Python are
not modelled (no claim depends on them), and floats are treated as exact
decimal values rather than IEEE doubles.
-/

/-- Exact value of a parsed Python float: `mant * 10 ^ exp`. -/
structure PyNum where
  mant : ℤ
  exp : ℤ
deriving DecidableEq

/-- Ten to an integer power, as a rational. -/
def pow10 (e : ℤ) : ℚ :=
  if 0 ≤ e then ((10 : ℚ) ^ e.toNat) else 1 / ((10 : ℚ) ^ (-e).toNat)

/-- The rational value denoted by a parsed float. -/
def pyNumVal (p : PyNum) : ℚ := (p.mant : ℚ) * pow10 p.exp

/-- Python float truthiness (`bool(x)`): the value is nonzero. -/
def pyTruthy (p : PyNum) : Bool := decide (p.mant ≠ 0)

/-- Python `float.is_integer`: the value has no fractional part. -/
def pyIsInteger (p : PyNum) : Bool :=
  if 0 ≤ p.exp then true else decide (p.mant % ((10 : ℤ) ^ (-p.exp).toNat) = 0)

/-- Leading-sign step of the float grammar. -/
def parseSign (l : List Char) : ℤ × List Char :=
  match l with
  | '+' :: r => (1, r)
  | '-' :: r => (-1, r)
  | _ => (1, l)

/-- Numeric value of a digit run. -/
def digitsVal (l : List Char) : Nat :=
  l.foldl (fun a c => a * 10 + (c.toNat - 48)) 0

/-- Mantissa step: integer part, optional decimal point and fraction part;
returns (mantissa digits value, number of fraction digits, rest). -/
def parseMantissa (l : List Char) : Option ((Nat × Nat) × List Char) :=
  let ip := l.takeWhile isDigitB
  let r1 := l.dropWhile isDigitB
  match r1 with
  | '.' :: r2 =>
    let fp := r2.takeWhile isDigitB
    let r3 := r2.dropWhile isDigitB
    if ip.isEmpty && fp.isEmpty then none
    else some ((digitsVal (ip ++ fp), fp.length), r3)
  | _ => if ip.isEmpty then none else some ((digitsVal ip, 0), r1)

/-- Exponent step: either nothing is left, or `e`/`E`, a sign and digits. -/
def parseExpZ (l : List Char) : Option ℤ :=
  match l with
  | [] => some 0
  | c :: r =>
    if c = 'e' || c = 'E' then
      let sr : ℤ × List Char :=
        match r with
        | '+' :: r3 => (1, r3)
        | '-' :: r3 => (-1, r3)
        | _ => (1, r)
      let ds := sr.2.takeWhile isDigitB
      let rest := sr.2.dropWhile isDigitB
      if ds.isEmpty || !rest.isEmpty then none
      else some (sr.1 * (digitsVal ds : ℤ))
    else none

/-- Python `float(s)` on the finite-literal grammar: `none` models a
`ValueError`. -/
def parseFloat (s : String) : Option PyNum :=
  let sr := parseSign s.data
  match parseMantissa sr.2 with
  | none => none
  | some mr =>
    match parseExpZ mr.2 with
    | none => none
    | some e => some { mant := sr.1 * (mr.1.1 : ℤ), exp := e - (mr.1.2 : ℤ) }

/-!
Column role classifier — `_analyze_columns` / `_classify_columns`
(src/app/services/excel_reader.py:244, 287)
-/

/-- The per-cell analysis dict built by `_analyze_columns`. -/
structure ColInfo where
  idx : Nat
  value : String
  is_empty : Bool
  is_numeric : Bool
  is_monetary : Bool
  numeric_value : Option PyNum
deriving DecidableEq

/-- Analysis of one cell (loop body of `_analyze_columns`): trim, try a float
parse on the text with commas and spaces removed, and tag as monetary when the
parse succeeds and the text has a comma, a decimal point, or is exactly "0". -/
def analyzeCell (i : Nat) (cell : Option String) : ColInfo :=
  let val := strTrim (cell.getD "")
  let base : ColInfo :=
    { idx := i, value := val, is_empty := val == "", is_numeric := false,
      is_monetary := false, numeric_value := none }
  if val == "" then base
  else
    let cleaned : String := ⟨removeChar ' ' (removeChar ',' val.data)⟩
    match parseFloat cleaned with
    | none => base
    | some q =>
      { base with
        is_numeric := true
        numeric_value := some q
        is_monetary :=
          strHasChar val ',' || strHasChar cleaned '.' || (strTrim val == "0") }

/-- Embedding of `_analyze_columns`: analyze columns 2 through
`min(len(row), 15) - 1`. -/
def analyzeColumns (row : List (Option String)) : List ColInfo :=
  (List.range' 2 (min row.length 15 - 2)).map (fun i => analyzeCell i (getCell row i))

/-- Python truthiness-guarded integrality test
`col["numeric_value"] and col["numeric_value"].is_integer()`. -/
def numTruthyInt (o : Option PyNum) : Bool :=
  match o with
  | none => false
  | some p => pyTruthy p && pyIsInteger p

/-- Loop body of `_classify_columns`: accumulator is
(text columns, payment-order column, monetary columns). -/
def classifyStep (acc : List ColInfo × Option ColInfo × List ColInfo)
    (col : ColInfo) : List ColInfo × Option ColInfo × List ColInfo :=
  if col.is_empty then acc
  else if col.is_monetary then (acc.1, acc.2.1, acc.2.2 ++ [col])
  else if col.is_numeric && !col.is_monetary then
    if acc.2.1.isNone && numTruthyInt col.numeric_value then (acc.1, some col, acc.2.2)
    else (acc.1, acc.2.1, acc.2.2 ++ [col])
  else (acc.1 ++ [col], acc.2.1, acc.2.2)

/-- Embedding of `_classify_columns`. -/
def classifyColumns (cols : List ColInfo) : List ColInfo × Option ColInfo × List ColInfo :=
  cols.foldl classifyStep ([], none, [])

/-- Cell-level eligibility for the payment-order slot as the code implements
it: non-empty, numeric, not tagged monetary, and with a truthy (nonzero)
integer-valued parse. -/
def eligibleRef (c : ColInfo) : Bool :=
  !c.is_empty && !c.is_monetary && c.is_numeric && numTruthyInt c.numeric_value

/-- Embedding of `_extract_text_fields`. -/
def extractTextFields (text_cols : List ColInfo) : String × String :=
  match text_cols with
  | c1 :: c2 :: rest =>
    (c1.value, String.intercalate " " ((c2 :: rest).map (fun c => c.value)))
  | [c] => ("", c.value)
  | [] => ("", "")

/-- Python `current_saldo_inicial if current_saldo_inicial else ""`. -/
def saldoOrEmpty (o : Option String) : String :=
  match o with
  | some s => if s == "" then "" else s
  | none => ""

/-- Embedding of `_extract_monetary_fields`
(src/app/services/excel_reader.py:337): map 4+/3/2 monetary cells onto the
(saldo_inicial, cargos, abonos, saldo_final) slots. -/
def extractMonetaryFields (mon : List ColInfo) (saldoIni : Option String) :
    String × String × String × String :=
  match mon with
  | a :: b :: c :: d :: _ => (a.value, b.value, c.value, d.value)
  | [a, b, c] => (saldoOrEmpty saldoIni, a.value, b.value, c.value)
  | [a, b] => (saldoOrEmpty saldoIni, "", a.value, b.value)
  | _ => ("", "", "", "")

/-- One decoded row as emitted by the sheet reader (`RawTransaction` in the
spec's data model); all monetary fields are still raw text. -/
structure RawTransaction where
  cuenta_contable : String
  nombre_cuenta : String
  fecha : String
  poliza : String
  beneficiario : String
  descripcion : String
  orden_pago : String
  saldo_inicial : String
  cargos : String
  abonos : String
  saldo_final : String
deriving DecidableEq

/-- Embedding of `_parse_transaction_row` (src/app/services/excel_reader.py:173).
The `pd.to_datetime(...).strftime` reformat is an external-library call whose
failure branch keeps the stripped raw text; we model the date field as that
stripped raw text (no claim constrains the reformatted value). -/
def parseTransactionRow (row : List (Option String)) (cuenta nombre : String)
    (saldoIni : Option String) : Option RawTransaction :=
  match getCell row 0 with
  | none => none
  | some f =>
    if f == "" then none
    else if !is_date_like (some f) then none
    else
      let fecha := strTrim f
      let poliza := strTrim ((getCell row 1).getD "")
      let parts := classifyColumns (analyzeColumns row)
      if parts.2.2.length < 2 then none
      else
        let tf := extractTextFields parts.1
        let op := match parts.2.1 with | some c => c.value | none => ""
        let mf := extractMonetaryFields parts.2.2 saldoIni
        some
          { cuenta_contable := cuenta
            nombre_cuenta := nombre
            fecha := fecha
            poliza := poliza
            beneficiario := tf.1
            descripcion := tf.2
            orden_pago := op
            saldo_inicial := mf.1
            cargos := mf.2.1
            abonos := mf.2.2.1
            saldo_final := mf.2.2.2 }

/-!
Layout-sniffing sheet reader — `_extract_transactions`, `detect_header_row`,
`read_excel_file` (src/app/services/excel_reader.py:28, 77;
src/app/utils/excel_parser.py:57)
-/

/-- Row text `" ".join(row.fillna("").astype(str))`. -/
def joinCells (row : List (Option String)) : String :=
  String.intercalate " " (row.map (fun c => c.getD ""))

/-- Python `s.split(sep, 1)` on a single-character separator; `none` when the
separator does not occur. -/
def splitFirstChar (sep : Char) : List Char → Option (List Char × List Char)
  | [] => none
  | c :: r =>
    if c = sep then some ([], r)
    else
      match splitFirstChar sep r with
      | none => none
      | some p => some (c :: p.1, p.2)

/-- Python `s.split(pat, 1)` on a multi-character separator; `none` when `pat`
does not occur. -/
def splitFirstSub (pat : List Char) : List Char → Option (List Char × List Char)
  | [] => if startsWithChars pat [] then some ([], []) else none
  | c :: r =>
    if startsWithChars pat (c :: r) then some ([], (c :: r).drop pat.length)
    else
      match splitFirstSub pat r with
      | none => none
      | some p => some (c :: p.1, p.2)

/-- Embedding of `_parse_cuenta_line`: split off the text after the first
colon, then split `"<code> - <name>"` on the first `" - "`. -/
def parseCuentaLine (line : String) : String × String :=
  match splitFirstChar ':' line.data with
  | some p =>
    let cn := strTrim ⟨p.2⟩
    match splitFirstSub (" - ".data) cn.data with
    | some q => (strTrim ⟨q.1⟩, strTrim ⟨q.2⟩)
    | none => (cn, "")
  | none => ("", "")

/-- Python `str.isdigit` on the ASCII fragment: non-empty and all digits. -/
def pyIsdigitList (l : List Char) : Bool := !l.isEmpty && allDigits l

/-- The `test_val` of `_extract_saldo_inicial`: the cell text with commas,
dots and minus signs removed. -/
def saldoTestVal (val : String) : List Char :=
  removeChar '-' (removeChar '.' (removeChar ',' val.data))

/-- Cell acceptance test of `_extract_saldo_inicial` (non-empty, has a digit,
and the separator-stripped text is all digits). -/
def saldoCellOk (val : String) : Bool :=
  !(val == "") && val.data.any isDigitB &&
  (pyIsdigitList (removeChar '.' (saldoTestVal val)) ||
   pyIsdigitList (removeChar '-' (removeChar '.' (saldoTestVal val))))

/-- Embedding of `_extract_saldo_inicial`: first acceptable cell, else "". -/
def extractSaldoInicial : List (Option String) → String
  | [] => ""
  | c :: rest =>
    let val := strTrim (c.getD "")
    if saldoCellOk val then val else extractSaldoInicial rest

/-- Python truthiness of an optional string (`None` and `""` are falsy). -/
def optTruthy (o : Option String) : Bool :=
  match o with
  | none => false
  | some s => !(s == "")

/-- The `SectionContext` of the row-classification loop: accumulated records
plus `current_cuenta` / `current_nombre` / `current_saldo_inicial`. -/
structure ReaderState where
  records : List RawTransaction
  cuenta : Option String
  nombre : Option String
  saldo : Option String

/-- One iteration of the row-classification loop of `_extract_transactions`
(src/app/services/excel_reader.py:100): account marker, opening-balance row,
empty row, total rows, no-account noise, else transaction parse. -/
def extractStep (st : ReaderState) (row : List (Option String)) : ReaderState :=
  let first_col := strTrim ((getCell row 0).getD "")
  if containsSub (pyUpperS first_col) "CUENTA CONTABLE:" then
    let cn := parseCuentaLine first_col
    { st with cuenta := some cn.1, nombre := some cn.2, saldo := none }
  else if containsSub (pyUpperS (joinCells row)) "SALDO INICIAL CUENTA" &&
          optTruthy st.cuenta then
    { st with saldo := some (extractSaldoInicial row) }
  else if row.all (fun c => c.isNone) then st
  else if containsSub (pyLowerS (joinCells row)) "saldo acumulado" ||
          containsSub (pyLowerS (joinCells row)) "saldo final cuenta" then st
  else if !optTruthy st.cuenta then st
  else
    match st.cuenta with
    | some cta =>
      match parseTransactionRow row cta (st.nombre.getD "") st.saldo with
      | some r => { st with records := st.records ++ [r] }
      | none => st
    | none => st

/-- Header-row test: the lower-cased joined row text contains "fecha" and
either "poliza" or "saldo" (src/app/utils/excel_parser.py:70). -/
def headerPred (row : List (Option String)) : Bool :=
  containsSub (pyLowerS (joinCells row)) "fecha" &&
  (containsSub (pyLowerS (joinCells row)) "poliza" ||
   containsSub (pyLowerS (joinCells row)) "saldo")

/-- Scanning loop of `detect_header_row`. -/
def detectHeaderAux : List (List (Option String)) → Nat → Option Nat
  | [], _ => none
  | r :: rest, i => if headerPred r then some i else detectHeaderAux rest (i + 1)

/-- Embedding of `detect_header_row` (src/app/utils/excel_parser.py:57): scan
at most the first 20 rows. -/
def detectHeaderRow (raw : List (List (Option String))) : Option Nat :=
  detectHeaderAux (raw.take 20) 0

/-- Embedding of `_extract_transactions` (src/app/services/excel_reader.py:77):
skip a possible two-row header, then fold the row-classification loop. -/
def extractTransactions (raw : List (List (Option String))) (headerIdx : Nat) :
    List RawTransaction :=
  let s0 := headerIdx + 1
  let nextText :=
    if s0 < raw.length then pyLowerS (joinCells (raw.getD s0 [])) else ""
  let start :=
    if containsSub nextText "beneficiario" || containsSub nextText "descripcion" ||
       containsSub nextText "no." then s0 + 1 else s0
  ((raw.drop start).foldl extractStep
    { records := [], cuenta := none, nombre := none, saldo := none }).records

/-- Embedding of `read_excel_file` (src/app/services/excel_reader.py:28) on an
already-opened grid: the binary deserialization done by `pd.read_excel` is
external; its failure branch also returns the empty record list. -/
def read_excel_file (raw : List (List (Option String))) : List RawTransaction :=
  if raw.length < 2 then []
  else
    match detectHeaderRow raw with
    | none => []
    | some h => extractTransactions raw h

/-!
Running balance calculator — `_calculate_balances`
(src/app/services/data_processor.py:208) and the orchestrator `process_files`
(src/app/services/data_processor.py:44)
-/

/-- One fully converted transaction row as it enters the balance pass: the
string monetary columns have been converted by `to_numeric_fast` and the
account components decoded.  Amounts are exact rationals (the source uses
floats). -/
structure NumTrans where
  archivo_origen : String
  cuenta_contable : String
  nombre_cuenta : String
  fecha : String
  poliza : String
  beneficiario : String
  descripcion : String
  orden_pago : String
  componentes : CuentaComponentes
  saldo_inicial : ℚ
  cargos : ℚ
  abonos : ℚ
  saldo_final : ℚ
deriving DecidableEq

/-- Embedding of `to_numeric_fast` (src/app/utils/helpers.py:30): drop every
character that is not a digit, dot or minus, parse, and coerce failures to 0. -/
def toNumericVal (s : String) : ℚ :=
  match parseFloat ⟨s.data.filter (fun c =>
      isDigitB c || decide (c = '.') || decide (c = '-'))⟩ with
  | some p => pyNumVal p
  | none => 0

/-- Steps 2-4 of `process_files` applied to one reader record: attach the
source file name, decode the account components, convert the monetary text.
`saldo_final` is initialized to 0 exactly as `_calculate_balances` does before
its account loop. -/
def convertTransaccion (archivo : String) (r : RawTransaction) : NumTrans :=
  { archivo_origen := archivo
    cuenta_contable := r.cuenta_contable
    nombre_cuenta := r.nombre_cuenta
    fecha := r.fecha
    poliza := r.poliza
    beneficiario := r.beneficiario
    descripcion := r.descripcion
    orden_pago := r.orden_pago
    componentes := parse_cuenta_contable r.cuenta_contable
    saldo_inicial := toNumericVal r.saldo_inicial
    cargos := toNumericVal r.cargos
    abonos := toNumericVal r.abonos
    saldo_final := 0 }

/-- `df[df["cuenta_contable"] == cuenta].index` of `_calculate_balances`. -/
def accountIndices (d : List NumTrans) (cuenta : String) : List Nat :=
  (List.range d.length).filter (fun i =>
    match d[i]? with
    | some r => r.cuenta_contable == cuenta
    | none => false)

/-- Inner loop body of `_calculate_balances`: state is (rows, j, saldo_actual);
the first row of a group keeps its own opening balance, later rows have it
overwritten with the running closing balance. -/
def balanceStep (acc : List NumTrans × Nat × ℚ) (idx : Nat) :
    List NumTrans × Nat × ℚ :=
  match acc.1[idx]? with
  | none => acc
  | some r =>
    if acc.2.1 = 0 then
      (acc.1.set idx { r with saldo_final := r.saldo_inicial + r.cargos - r.abonos },
       acc.2.1 + 1, r.saldo_inicial + r.cargos - r.abonos)
    else
      (acc.1.set idx
        { r with saldo_inicial := acc.2.2, saldo_final := acc.2.2 + r.cargos - r.abonos },
       acc.2.1 + 1, acc.2.2 + r.cargos - r.abonos)

/-- Per-account pass of `_calculate_balances`. -/
def processCuenta (d : List NumTrans) (cuenta : String) : List NumTrans :=
  ((accountIndices d cuenta).foldl balanceStep (d, 0, 0)).1

/-- `pandas.unique`: account codes in first-occurrence order. -/
def dedupFirst : List String → List String
  | [] => []
  | c :: r => c :: dedupFirst (r.filter (fun x => decide (x ≠ c)))
termination_by l => l.length
decreasing_by
  simp_wf
  exact Nat.lt_succ_of_le (List.length_filter_le _ _)

/-- Embedding of `_calculate_balances` (src/app/services/data_processor.py:208):
zero the closing column, then chain balances within each account group in
original row order. -/
def calculateBalances (df : List NumTrans) : List NumTrans :=
  let df0 := df.map (fun r => { r with saldo_final := 0 })
  (dedupFirst (df0.map (fun r => r.cuenta_contable))).foldl processCuenta df0

/-- Closed form of the inner balance loop on the rows after the first: each
row's opening balance becomes the running balance, its closing balance extends
it. -/
def chainFrom (s : ℚ) : List NumTrans → List NumTrans
  | [] => []
  | r :: rest =>
    { r with saldo_inicial := s, saldo_final := s + r.cargos - r.abonos } ::
      chainFrom (s + r.cargos - r.abonos) rest

/-- Closed form of the whole single-account balance pass: the first row keeps
its opening balance. -/
def chainAll : List NumTrans → List NumTrans
  | [] => []
  | r :: rest =>
    { r with saldo_final := r.saldo_inicial + r.cargos - r.abonos } ::
      chainFrom (r.saldo_inicial + r.cargos - r.abonos) rest

/-- Terminal state of the `LoteCarga` batch record observable after a run. -/
structure LoteCarga where
  estado : String
  mensaje : String
  total_registros : Nat
deriving DecidableEq

/-- Outcome of one `process_files` run: the terminal batch record, the rows
persisted by `_insert_into_database`, and the value returned to the caller
(`Except.error` models the raised `ValueError`). -/
structure ProcessOutcome where
  lote : LoteCarga
  inserted : List NumTrans
  result : Except String Nat

/-- The persistence chunking of `_insert_into_database` (chunk_size 1000). -/
def chunksOf1000 : List NumTrans → List (List NumTrans)
  | [] => []
  | x :: xs => ((x :: xs).take 1000) :: chunksOf1000 ((x :: xs).drop 1000)
termination_by l => l.length
decreasing_by
  simp_wf
  omega

/-- The `_handle_no_files_processed` error message
(src/app/services/data_processor.py:325). -/
def noFilesMsg (fallidos : List String) : String :=
  "No se pudo procesar ningún archivo válido. Archivos fallidos: " ++
    String.intercalate ", " fallidos

/-- Embedding of `process_files` (src/app/services/data_processor.py:44) over
the per-file reader outcomes (`reads` pairs each file name with the records
its sheet read produced; an empty list is a failed/empty file).  External
effects are out of the model: thread-pool completion order is taken to be list
order, progress callbacks and the date-parsing of step 6 are dropped, and
database commits are assumed to succeed.  When no file yields records the
batch is marked `error` by `_handle_no_files_processed`, a `ValueError`
carrying the message is raised, and `_handle_error` overwrites the batch
message with the rendered exception before re-raising. -/
def processFiles (reads : List (String × List RawTransaction)) : ProcessOutcome :=
  let frames := reads.filter (fun p => !p.2.isEmpty)
  let fallidos := (reads.filter (fun p => p.2.isEmpty)).map Prod.fst
  if frames.isEmpty then
    { lote :=
        { estado := "error"
          mensaje := "ValueError: " ++ noFilesMsg fallidos
          total_registros := 0 }
      inserted := []
      result := Except.error (noFilesMsg fallidos) }
  else
    let base := frames.flatMap (fun p => p.2.map (convertTransaccion p.1))
    let final := calculateBalances base
    let inserted := (chunksOf1000 final).flatMap (fun c => c)
    { lote :=
        { estado := "completado"
          mensaje := "Procesados " ++ toString final.length ++
            " registros de " ++ toString frames.length ++ " archivos"
          total_registros := final.length }
      inserted := inserted
      result := Except.ok final.length }

theorem ljustZeros_length (l : List Char) : 21 ≤ (ljustZeros l).length := by
  simp [ljustZeros]
  omega

theorem sliceStr_length (l : List Char) (a b : Nat) (hb : b ≤ 21) :
    (sliceStr (ljustZeros l) a b).length = b - a := by
  have h := ljustZeros_length l
  simp [sliceStr, String.length]
  omega

theorem ljustZeros_take (l : List Char) :
    (ljustZeros l).take 21 = ljustZeros (l.take 21) := by
  by_cases h : 21 ≤ l.length
  · have h0 : 21 - l.length = 0 := by omega
    have h1 : (l.take 21).length = 21 := by simp; omega
    simp [ljustZeros, h0, h1, List.take_append_eq_append_take]
  · have h1 : l.take 21 = l := List.take_of_length_le (by omega)
    have h2 : (ljustZeros l).length = 21 := by simp [ljustZeros]; omega
    rw [List.take_of_length_le (by omega), h1]

theorem sliceStr_take (p : List Char) (a b : Nat) (hb : b ≤ 21) :
    sliceStr (p.take 21) a b = sliceStr p a b := by
  simp only [sliceStr, List.drop_take, List.take_take]
  congr 2
  omega

theorem take_chunk (l : List Char) (a m k : Nat) :
    (l.drop a).take (m + k) = (l.drop a).take m ++ (l.drop (a + m)).take k := by
  rw [List.take_add, List.drop_drop]

theorem slices_concat (l : List Char) :
    (l.drop 0).take 1 ++ (l.drop 1).take 1 ++ (l.drop 2).take 1 ++
    (l.drop 3).take 1 ++ (l.drop 4).take 1 ++ (l.drop 5).take 2 ++
    (l.drop 7).take 2 ++ (l.drop 9).take 2 ++ (l.drop 11).take 2 ++
    (l.drop 13).take 1 ++ (l.drop 14).take 2 ++ (l.drop 16).take 1 ++
    (l.drop 17).take 4 = l.take 21 := by
  have h0 := take_chunk l 0 1 20
  have h1 := take_chunk l 1 1 19
  have h2 := take_chunk l 2 1 18
  have h3 := take_chunk l 3 1 17
  have h4 := take_chunk l 4 1 16
  have h5 := take_chunk l 5 2 14
  have h7 := take_chunk l 7 2 12
  have h9 := take_chunk l 9 2 10
  have h11 := take_chunk l 11 2 8
  have h13 := take_chunk l 13 1 7
  have h14 := take_chunk l 14 2 5
  have h16 := take_chunk l 16 1 4
  norm_num at h0 h1 h2 h3 h4 h5 h7 h9 h11 h13 h14 h16
  simp only [List.drop_zero, List.drop_one]
  rw [h0, h1, h2, h3, h4, h5, h7, h9, h11, h13, h14, h16]
  simp [List.append_assoc]

/-- C4: for every input string, `parse_cuenta_contable` is total and returns 13
components of widths 1,1,1,1,1,2,2,2,2,1,2,1,4 summing to 21 characters, and
the result is determined by (at most) the first 21 characters that survive
upper-casing and stripping of non-`[0-9A-Z]` characters. -/
theorem parse_cuenta_totality (s : String) :
    ((parse_cuenta_contable s).genero.length = 1 ∧
     (parse_cuenta_contable s).grupo.length = 1 ∧
     (parse_cuenta_contable s).rubro.length = 1 ∧
     (parse_cuenta_contable s).cuenta.length = 1 ∧
     (parse_cuenta_contable s).subcuenta.length = 1 ∧
     (parse_cuenta_contable s).dependencia.length = 2 ∧
     (parse_cuenta_contable s).unidad_responsable.length = 2 ∧
     (parse_cuenta_contable s).centro_costo.length = 2 ∧
     (parse_cuenta_contable s).proyecto_presupuestario.length = 2 ∧
     (parse_cuenta_contable s).fuente.length = 1 ∧
     (parse_cuenta_contable s).subfuente.length = 2 ∧
     (parse_cuenta_contable s).tipo_recurso.length = 1 ∧
     (parse_cuenta_contable s).partida_presupuestal.length = 4) ∧
    (concatComponentes (parse_cuenta_contable s)).length = 21 ∧
    (∀ t : String, (normalizeCuenta s).take 21 = (normalizeCuenta t).take 21 →
      parse_cuenta_contable s = parse_cuenta_contable t) := by
  refine ⟨?_, ?_, ?_⟩
  · exact ⟨sliceStr_length _ 0 1 (by omega), sliceStr_length _ 1 2 (by omega),
      sliceStr_length _ 2 3 (by omega), sliceStr_length _ 3 4 (by omega),
      sliceStr_length _ 4 5 (by omega), sliceStr_length _ 5 7 (by omega),
      sliceStr_length _ 7 9 (by omega), sliceStr_length _ 9 11 (by omega),
      sliceStr_length _ 11 13 (by omega), sliceStr_length _ 13 14 (by omega),
      sliceStr_length _ 14 16 (by omega), sliceStr_length _ 16 17 (by omega),
      sliceStr_length _ 17 21 (by omega)⟩
  · simp only [concatComponentes, String.length_append, parse_cuenta_contable]
    rw [sliceStr_length _ 0 1 (by omega), sliceStr_length _ 1 2 (by omega),
      sliceStr_length _ 2 3 (by omega), sliceStr_length _ 3 4 (by omega),
      sliceStr_length _ 4 5 (by omega), sliceStr_length _ 5 7 (by omega),
      sliceStr_length _ 7 9 (by omega), sliceStr_length _ 9 11 (by omega),
      sliceStr_length _ 11 13 (by omega), sliceStr_length _ 13 14 (by omega),
      sliceStr_length _ 14 16 (by omega), sliceStr_length _ 16 17 (by omega),
      sliceStr_length _ 17 21 (by omega)]
  · intro t h
    have key : ∀ a b : Nat, b ≤ 21 →
        sliceStr (ljustZeros (normalizeCuenta s)) a b =
        sliceStr (ljustZeros (normalizeCuenta t)) a b := by
      intro a b hb
      rw [← sliceStr_take (ljustZeros (normalizeCuenta s)) a b hb]
      rw [← sliceStr_take (ljustZeros (normalizeCuenta t)) a b hb]
      rw [ljustZeros_take, ljustZeros_take, h]
    simp only [parse_cuenta_contable, CuentaComponentes.mk.injEq]
    exact ⟨key 0 1 (by omega), key 1 2 (by omega), key 2 3 (by omega),
      key 3 4 (by omega), key 4 5 (by omega), key 5 7 (by omega),
      key 7 9 (by omega), key 9 11 (by omega), key 11 13 (by omega),
      key 13 14 (by omega), key 14 16 (by omega), key 16 17 (by omega),
      key 17 21 (by omega)⟩

/-- Witness for C4: the decoder result is unchanged when the non-alphanumeric
dots are stripped from the input. -/
theorem parse_cuenta_totality_witness :
    parse_cuenta_contable "1.2.3" = parse_cuenta_contable "123" :=
  (parse_cuenta_totality "1.2.3").2.2 "123" (by decide)

theorem dropWhile_all_false {p : Char → Bool} {l : List Char}
    (h : ∀ c ∈ l, p c = false) : l.dropWhile p = l := by
  cases l with
  | nil => rfl
  | cons a t => simp [List.dropWhile_cons, h a (by simp)]

theorem pyStrip_all_nonspace {l : List Char}
    (h : ∀ c ∈ l, isPySpace c = false) : pyStrip l = l := by
  unfold pyStrip
  rw [dropWhile_all_false h]
  rw [dropWhile_all_false (by intro c hc; exact h c (List.mem_reverse.mp hc))]
  exact List.reverse_reverse l

theorem isCuentaChar_val {c : Char} (h : isCuentaChar c = true) :
    (48 ≤ c.toNat ∧ c.toNat ≤ 57) ∨ (65 ≤ c.toNat ∧ c.toNat ≤ 90) := by
  simp only [isCuentaChar, Bool.or_eq_true, Bool.and_eq_true,
    decide_eq_true_eq] at h
  exact h

/-- C9: a 21-character string made only of digits and uppercase letters is
recovered verbatim by concatenating the 13 decoded components in field order. -/
theorem parse_cuenta_roundtrip (s : String) (hlen : s.length = 21)
    (hchars : ∀ c ∈ s.data, isCuentaChar c = true) :
    concatComponentes (parse_cuenta_contable s) = s := by
  have hnospace : ∀ c ∈ s.data, isPySpace c = false := by
    intro c hc
    rcases isCuentaChar_val (hchars c hc) with h | h <;>
      · simp only [isPySpace, Bool.or_eq_false_iff, decide_eq_false_iff_not]
        omega
  have hupper : ∀ c ∈ s.data, pyToUpper c = c := by
    intro c hc
    rcases isCuentaChar_val (hchars c hc) with h | h <;>
      · unfold pyToUpper
        rw [if_neg (by omega)]
  have hnorm : normalizeCuenta s = s.data := by
    unfold normalizeCuenta
    rw [pyStrip_all_nonspace hnospace]
    have hid : s.data.map pyToUpper = s.data := by
      rw [List.map_congr_left hupper]
      simp
    rw [hid]
    exact List.filter_eq_self.mpr hchars
  have hdlen : s.data.length = 21 := hlen
  have hpad : ljustZeros s.data = s.data := by
    unfold ljustZeros
    rw [hdlen]
    simp
  apply String.ext
  simp only [concatComponentes, String.data_append, parse_cuenta_contable,
    hnorm, hpad, sliceStr]
  have := slices_concat s.data
  simp only [List.append_assoc] at this ⊢
  rw [this, List.take_of_length_le (by omega)]

/-- Witness for C9: a concrete canonical 21-character code round-trips. -/
theorem parse_cuenta_roundtrip_witness :
    concatComponentes (parse_cuenta_contable "123456789012345678901") =
      "123456789012345678901" :=
  parse_cuenta_roundtrip "123456789012345678901" (by decide) (by decide)

theorem parseTransactionRow_date_guard (row : List (Option String))
    (cuenta nombre : String) (saldoIni : Option String) (r : RawTransaction)
    (hr : parseTransactionRow row cuenta nombre saldoIni = some r) :
    is_date_like (getCell row 0) = true := by
  unfold parseTransactionRow at hr
  cases h0 : getCell row 0 with
  | none => rw [h0] at hr; cases hr
  | some f =>
    rw [h0] at hr
    dsimp only [] at hr
    by_cases h1 : (f == "") = true
    · rw [if_pos h1] at hr; cases hr
    · rw [if_neg h1] at hr
      by_cases h2 : is_date_like (some f) = true
      · exact h2
      · rw [Bool.not_eq_true] at h2
        rw [if_pos (by rw [h2]; rfl)] at hr
        cases hr

theorem matchesDatePattern_empty : matchesDatePattern "" = false := by decide

/-- C8: a row with an active account is parsed as a transaction only if its
first cell passes `is_date_like`; `is_date_like` holds exactly for values
whose stripped text is non-empty and either contains "/" or "-" or matches one
of the code's date patterns (its "successfully parses as a date" fallback); in
particular, a value matching a date pattern is never rejected by this
discriminator, whether or not it contains "/" or "-". -/
theorem date_discriminator :
    (∀ (row : List (Option String)) (cuenta nombre : String)
       (saldoIni : Option String) (r : RawTransaction),
       parseTransactionRow row cuenta nombre saldoIni = some r →
       is_date_like (getCell row 0) = true) ∧
    (∀ s : String, is_date_like (some s) = true ↔
       (strTrim s ≠ "" ∧ (strHasChar (strTrim s) '/' = true ∨
         strHasChar (strTrim s) '-' = true ∨
         matchesDatePattern (strTrim s) = true))) ∧
    (∀ s : String, matchesDatePattern (strTrim s) = true →
       is_date_like (some s) = true) := by
  refine ⟨fun row cuenta nombre saldoIni r hr =>
    parseTransactionRow_date_guard row cuenta nombre saldoIni r hr, ?_, ?_⟩
  · intro s
    show (if strTrim s == "" then false
          else if strHasChar (strTrim s) '/' || strHasChar (strTrim s) '-' then true
          else matchesDatePattern (strTrim s)) = true ↔ _
    by_cases he : (strTrim s == "") = true
    · rw [if_pos he]
      simp only [beq_iff_eq] at he
      constructor
      · intro h; cases h
      · rintro ⟨hne, -⟩; exact absurd he hne
    · rw [if_neg he]
      simp only [beq_iff_eq] at he
      by_cases hsep : (strHasChar (strTrim s) '/' || strHasChar (strTrim s) '-') = true
      · rw [if_pos hsep]
        simp only [Bool.or_eq_true] at hsep
        simp only [true_iff]
        exact ⟨he, hsep.elim (fun h => Or.inl h) (fun h => Or.inr (Or.inl h))⟩
      · rw [if_neg hsep]
        simp only [Bool.or_eq_true] at hsep
        push_neg at hsep
        simp only [Bool.not_eq_true] at hsep
        constructor
        · intro hm
          exact ⟨he, Or.inr (Or.inr hm)⟩
        · rintro ⟨-, h | h | h⟩
          · rw [hsep.1] at h; cases h
          · rw [hsep.2] at h; cases h
          · exact h
  · intro s hm
    show (if strTrim s == "" then false
          else if strHasChar (strTrim s) '/' || strHasChar (strTrim s) '-' then true
          else matchesDatePattern (strTrim s)) = true
    by_cases he : (strTrim s == "") = true
    · simp only [beq_iff_eq] at he
      rw [he] at hm
      rw [matchesDatePattern_empty] at hm
      cases hm
    · rw [if_neg he]
      by_cases hsep : (strHasChar (strTrim s) '/' || strHasChar (strTrim s) '-') = true
      · rw [if_pos hsep]
      · rw [if_neg hsep]
        exact hm

/-- Witness for C8: a concrete pattern-matching date is accepted by the
discriminator. -/
theorem date_discriminator_witness : is_date_like (some "20-01-2024") = true :=
  date_discriminator.2.2 "20-01-2024" (by decide)

theorem parseTransactionRow_some (row : List (Option String))
    (cuenta nombre : String) (saldoIni : Option String) (r : RawTransaction)
    (hr : parseTransactionRow row cuenta nombre saldoIni = some r) :
    ¬((classifyColumns (analyzeColumns row)).2.2.length < 2) ∧
    r.saldo_inicial =
      (extractMonetaryFields (classifyColumns (analyzeColumns row)).2.2 saldoIni).1 ∧
    r.cargos =
      (extractMonetaryFields (classifyColumns (analyzeColumns row)).2.2 saldoIni).2.1 ∧
    r.abonos =
      (extractMonetaryFields (classifyColumns (analyzeColumns row)).2.2 saldoIni).2.2.1 ∧
    r.saldo_final =
      (extractMonetaryFields (classifyColumns (analyzeColumns row)).2.2 saldoIni).2.2.2 ∧
    r.cuenta_contable = cuenta := by
  unfold parseTransactionRow at hr
  cases h0 : getCell row 0 with
  | none => rw [h0] at hr; cases hr
  | some f =>
    rw [h0] at hr
    dsimp only [] at hr
    by_cases h1 : (f == "") = true
    · rw [if_pos h1] at hr; cases hr
    · rw [if_neg h1] at hr
      by_cases h2 : (!is_date_like (some f)) = true
      · rw [if_pos h2] at hr; cases hr
      · rw [if_neg h2] at hr
        by_cases h3 : (classifyColumns (analyzeColumns row)).2.2.length < 2
        · rw [if_pos h3] at hr; cases hr
        · rw [if_neg h3] at hr
          rw [Option.some.injEq] at hr
          subst hr
          exact ⟨h3, rfl, rfl, rfl, rfl, rfl⟩

/-- C2: the monetary-count to slot mapping of `_extract_monetary_fields`: a
row classifying to fewer than 2 monetary cells yields no transaction; exactly
4 monetary cells map in column order onto (opening, debit, credit, closing)
verbatim; exactly 3 map onto (debit, credit, closing) with the opening taken
from the section's stored opening balance (empty when absent); exactly 2 map
onto (credit, closing) with that stored opening and an empty debit. -/
theorem monetary_slot_mapping (row : List (Option String))
    (cuenta nombre : String) (saldoIni : Option String) :
    ((classifyColumns (analyzeColumns row)).2.2.length < 2 →
      parseTransactionRow row cuenta nombre saldoIni = none) ∧
    (∀ r : RawTransaction,
      parseTransactionRow row cuenta nombre saldoIni = some r →
      (((classifyColumns (analyzeColumns row)).2.2.length = 4 →
          (classifyColumns (analyzeColumns row)).2.2.map (fun c => c.value) =
            [r.saldo_inicial, r.cargos, r.abonos, r.saldo_final]) ∧
       ((classifyColumns (analyzeColumns row)).2.2.length = 3 →
          r.saldo_inicial = saldoOrEmpty saldoIni ∧
          (classifyColumns (analyzeColumns row)).2.2.map (fun c => c.value) =
            [r.cargos, r.abonos, r.saldo_final]) ∧
       ((classifyColumns (analyzeColumns row)).2.2.length = 2 →
          r.saldo_inicial = saldoOrEmpty saldoIni ∧ r.cargos = "" ∧
          (classifyColumns (analyzeColumns row)).2.2.map (fun c => c.value) =
            [r.abonos, r.saldo_final]))) := by
  constructor
  · intro hlt
    unfold parseTransactionRow
    cases h0 : getCell row 0 with
    | none => rfl
    | some f =>
      dsimp only []
      by_cases h1 : (f == "") = true
      · rw [if_pos h1]
      · rw [if_neg h1]
        by_cases h2 : (!is_date_like (some f)) = true
        · rw [if_pos h2]
        · rw [if_neg h2]
          rw [if_pos hlt]
  · intro r hr
    obtain ⟨hlen2, hsi, hca, hab, hsf, -⟩ :=
      parseTransactionRow_some row cuenta nombre saldoIni r hr
    rcases hM : (classifyColumns (analyzeColumns row)).2.2 with - | ⟨a, - | ⟨b, - | ⟨c, - | ⟨d, rest⟩⟩⟩⟩
    · rw [hM] at hlen2; simp at hlen2
    · rw [hM] at hlen2; simp at hlen2
    · rw [hM] at hsi hca hab hsf
      refine ⟨fun h4 => ?_, fun h3 => ?_, fun h2 => ?_⟩
      · simp at h4
      · simp at h3
      · rw [hsi, hca, hab, hsf]
        simp [extractMonetaryFields]
    · rw [hM] at hsi hca hab hsf
      refine ⟨fun h4 => ?_, fun h3 => ?_, fun h2 => ?_⟩
      · simp at h4
      · rw [hsi, hca, hab, hsf]
        simp [extractMonetaryFields]
      · simp at h2
    · rw [hM] at hsi hca hab hsf
      refine ⟨fun h4 => ?_, fun h3 => ?_, fun h2 => ?_⟩
      · simp only [List.length_cons] at h4
        have hrest : rest = [] := by
          have : rest.length = 0 := by omega
          exact List.length_eq_zero.mp this
        subst hrest
        rw [hsi, hca, hab, hsf]
        simp [extractMonetaryFields]
      · simp at h3
      · simp at h2

/-- Witness for C2: a concrete 3-monetary-cell row maps the stored section
opening balance and the three cells onto the four slots. -/
theorem monetary_slot_mapping_witness :
    ({ cuenta_contable := "1", nombre_cuenta := "N", fecha := "01/01/2024",
       poliza := "P-1", beneficiario := "", descripcion := "PAGO X",
       orden_pago := "", saldo_inicial := "9,000.00", cargos := "10.00",
       abonos := "20.00", saldo_final := "30.00" } : RawTransaction).saldo_inicial =
      saldoOrEmpty (some "9,000.00") ∧
    (classifyColumns (analyzeColumns
        [some "01/01/2024", some "P-1", some "PAGO X", some "10.00",
         some "20.00", some "30.00"])).2.2.map (fun c => c.value) =
      ["10.00", "20.00", "30.00"] := by
  have h := (monetary_slot_mapping
    [some "01/01/2024", some "P-1", some "PAGO X", some "10.00",
     some "20.00", some "30.00"] "1" "N" (some "9,000.00")).2
    { cuenta_contable := "1", nombre_cuenta := "N", fecha := "01/01/2024",
      poliza := "P-1", beneficiario := "", descripcion := "PAGO X",
      orden_pago := "", saldo_inicial := "9,000.00", cargos := "10.00",
      abonos := "20.00", saldo_final := "30.00" } (by decide)
  obtain ⟨h3a, h3b⟩ := h.2.1 (by decide)
  exact ⟨h3a, by rw [h3b]⟩

/-- C10: a row classifying to five or more monetary cells is still parsed
into a record (provided the date guard passes), with the first four monetary
cells mapped in column order onto (opening, debit, credit, closing) and every
later monetary cell discarded. -/
theorem five_monetary_discarded (row : List (Option String))
    (cuenta nombre : String) (saldoIni : Option String) (f : String)
    (h0 : getCell row 0 = some f) (h1 : (f == "") = false)
    (h2 : is_date_like (some f) = true)
    (h5 : 5 ≤ (classifyColumns (analyzeColumns row)).2.2.length) :
    ∃ r : RawTransaction,
      parseTransactionRow row cuenta nombre saldoIni = some r ∧
      (((classifyColumns (analyzeColumns row)).2.2.map (fun c => c.value)).take 4 =
        [r.saldo_inicial, r.cargos, r.abonos, r.saldo_final]) := by
  have hguard : ∀ r : RawTransaction,
      parseTransactionRow row cuenta nombre saldoIni = some r →
      (((classifyColumns (analyzeColumns row)).2.2.map (fun c => c.value)).take 4 =
        [r.saldo_inicial, r.cargos, r.abonos, r.saldo_final]) := by
    intro r hr
    obtain ⟨-, hsi, hca, hab, hsf, -⟩ :=
      parseTransactionRow_some row cuenta nombre saldoIni r hr
    rcases hM : (classifyColumns (analyzeColumns row)).2.2 with - | ⟨a, - | ⟨b, - | ⟨c, - | ⟨d, rest⟩⟩⟩⟩ <;>
      rw [hM] at h5
    · simp at h5
    · simp at h5
    · simp at h5
    · simp at h5
    · rw [hM] at hsi hca hab hsf
      rw [hsi, hca, hab, hsf]
      simp [extractMonetaryFields]
  have hsome : ∃ r : RawTransaction,
      parseTransactionRow row cuenta nombre saldoIni = some r := by
    unfold parseTransactionRow
    rw [h0]
    dsimp only []
    rw [if_neg (by rw [h1]; exact Bool.false_ne_true)]
    rw [if_neg (by rw [h2]; simp)]
    rw [if_neg (by omega)]
    exact ⟨_, rfl⟩
  obtain ⟨r, hr⟩ := hsome
  exact ⟨r, hr, hguard r hr⟩

/-- Witness for C10: a concrete row with five monetary cells parses and keeps
only the first four. -/
theorem five_monetary_discarded_witness :
    ∃ r : RawTransaction,
      parseTransactionRow
        [some "01/01/2024", some "P-1", some "B SA", some "100.00",
         some "2,000.50", some "30.25", some "40.75", some "55.00"]
        "1" "N" (some "9") = some r ∧
      (((classifyColumns (analyzeColumns
          [some "01/01/2024", some "P-1", some "B SA", some "100.00",
           some "2,000.50", some "30.25", some "40.75", some "55.00"])).2.2.map
          (fun c => c.value)).take 4 =
        [r.saldo_inicial, r.cargos, r.abonos, r.saldo_final]) :=
  five_monetary_discarded
    [some "01/01/2024", some "P-1", some "B SA", some "100.00",
     some "2,000.50", some "30.25", some "40.75", some "55.00"]
    "1" "N" (some "9") "01/01/2024" (by decide) (by decide) (by decide) (by decide)

theorem classify_op_persist (cols : List ColInfo) :
    ∀ (t : List ColInfo) (x : ColInfo) (m : List ColInfo),
      (cols.foldl classifyStep (t, some x, m)).2.1 = some x := by
  induction cols with
  | nil => intro t x m; rfl
  | cons c rest ih =>
    intro t x m
    simp only [List.foldl_cons, classifyStep]
    split_ifs with h1 h2 h3 h4
    · exact ih t x m
    · exact ih t x (m ++ [c])
    · simp at h4
    · exact ih t x (m ++ [c])
    · exact ih (t ++ [c]) x m

theorem classify_op_from_none (cols : List ColInfo) :
    ∀ (t m : List ColInfo),
      (cols.foldl classifyStep (t, none, m)).2.1 = cols.find? eligibleRef := by
  induction cols with
  | nil => intro t m; rfl
  | cons c rest ih =>
    intro t m
    simp only [List.foldl_cons, classifyStep]
    split_ifs with h1 h2 h3 h4
    · rw [ih t m, List.find?_cons_of_neg]
      simp [eligibleRef, h1]
    · rw [ih t (m ++ [c]), List.find?_cons_of_neg]
      simp [eligibleRef, h2]
    · rw [classify_op_persist rest t c m, List.find?_cons_of_pos]
      simp only [Option.isNone_none, Bool.true_and] at h4
      simp only [Bool.and_eq_true] at h3
      simp only [Bool.not_eq_true] at h1
      simp [eligibleRef, h1, h3.1, h3.2, h4]
    · rw [ih t (m ++ [c]), List.find?_cons_of_neg]
      simp only [Option.isNone_none, Bool.true_and] at h4
      simp only [Bool.not_eq_true] at h4
      simp [eligibleRef, h4]
    · rw [ih (t ++ [c]) m, List.find?_cons_of_neg]
      simp only [Bool.not_eq_true] at h2
      simp only [h2, Bool.not_false, Bool.and_true, Bool.not_eq_true] at h3
      simp [eligibleRef, h3]

theorem classify_mon_mono (cols : List ColInfo) :
    ∀ (t m : List ColInfo) (op : Option ColInfo) (x : ColInfo), x ∈ m →
      x ∈ (cols.foldl classifyStep (t, op, m)).2.2 := by
  induction cols with
  | nil => intro t m op x hx; exact hx
  | cons c rest ih =>
    intro t m op x hx
    simp only [List.foldl_cons, classifyStep]
    split_ifs <;>
      first
        | exact ih t m op x hx
        | exact ih t (m ++ [c]) op x (List.mem_append_left _ hx)
        | exact ih t m (some c) x hx
        | exact ih (t ++ [c]) m op x hx

theorem classify_mem_mon (cols : List ColInfo) :
    ∀ (t m : List ColInfo) (op : Option ColInfo) (c : ColInfo), c ∈ cols →
      c.is_empty = false → c.is_numeric = true →
      (cols.foldl classifyStep (t, op, m)).2.1 ≠ some c →
      c ∈ (cols.foldl classifyStep (t, op, m)).2.2 := by
  induction cols with
  | nil => intro t m op c hc; cases hc
  | cons a rest ih =>
    intro t m op c hc he hn hop
    simp only [List.foldl_cons, classifyStep] at hop ⊢
    rcases List.mem_cons.mp hc with rfl | hmem
    · split_ifs at hop ⊢ with h1 h2 h3 h4
      · rw [h1] at he; cases he
      · exact classify_mon_mono rest t (m ++ [c]) op c (List.mem_append_right _ (by simp))
      · exact absurd (classify_op_persist rest t c m) hop
      · exact classify_mon_mono rest t (m ++ [c]) op c (List.mem_append_right _ (by simp))
      · simp only [Bool.not_eq_true] at h2
        rw [hn, h2] at h3
        simp at h3
    · split_ifs at hop ⊢ with h1 h2 h3 h4
      · exact ih t m op c hmem he hn hop
      · exact ih t (m ++ [a]) op c hmem he hn hop
      · exact ih t m (some a) c hmem he hn hop
      · exact ih t (m ++ [a]) op c hmem he hn hop
      · exact ih (t ++ [a]) m op c hmem he hn hop

/-- C7 counterexample: in this concrete row, the cell "00" (analyzed at column
index 3) is numeric, not tagged monetary, and integer-valued with numeric
value 0 — by the claim it should be placed in the reference/payment-order
slot — yet the classifier leaves the payment-order slot empty and folds the
cell into the monetary bucket. -/
theorem refnum_zero_counterexample :
    (analyzeCell 3 (some "00")).is_numeric = true ∧
    (analyzeCell 3 (some "00")).is_monetary = false ∧
    (analyzeCell 3 (some "00")).numeric_value = some { mant := 0, exp := 0 } ∧
    pyNumVal { mant := 0, exp := 0 } = 0 ∧
    analyzeCell 3 (some "00") ∈
      analyzeColumns [some "01/01/2024", some "P-1", some "PAGO X",
        some "00", some "1,500.00", some "200.00"] ∧
    (classifyColumns (analyzeColumns [some "01/01/2024", some "P-1",
        some "PAGO X", some "00", some "1,500.00", some "200.00"])).2.1 = none ∧
    analyzeCell 3 (some "00") ∈
      (classifyColumns (analyzeColumns [some "01/01/2024", some "P-1",
        some "PAGO X", some "00", some "1,500.00", some "200.00"])).2.2 := by
  refine ⟨by decide, by decide, by decide, ?_, by decide, by decide, by decide⟩
  simp [pyNumVal, pow10]

/-- C7 (amended): the payment-order slot receives the first analyzed cell (in
column order over columns 2..14) that is non-empty, numeric, not tagged
monetary, and whose parsed value is a nonzero integer — a zero value fails the
guard `col["numeric_value"] and col["numeric_value"].is_integer()` — and every
remaining non-empty numeric cell not chosen for that slot is folded into the
monetary bucket. -/
theorem refnum_first_eligible (row : List (Option String)) :
    ((classifyColumns (analyzeColumns row)).2.1 =
      (analyzeColumns row).find? eligibleRef) ∧
    (∀ c ∈ analyzeColumns row, c.is_empty = false → c.is_numeric = true →
      (classifyColumns (analyzeColumns row)).2.1 ≠ some c →
      c ∈ (classifyColumns (analyzeColumns row)).2.2) := by
  constructor
  · exact classify_op_from_none (analyzeColumns row) [] []
  · intro c hc he hn hop
    exact classify_mem_mon (analyzeColumns row) [] [] none c hc he hn hop

/-- Witness for the amended C7: the zero-valued plain-numeric cell of the
counterexample row indeed lands in the monetary bucket. -/
theorem refnum_first_eligible_witness :
    analyzeCell 3 (some "00") ∈
      (classifyColumns (analyzeColumns [some "01/01/2024", some "P-1",
        some "PAGO X", some "00", some "1,500.00", some "200.00"])).2.2 :=
  (refnum_first_eligible [some "01/01/2024", some "P-1", some "PAGO X",
      some "00", some "1,500.00", some "200.00"]).2
    (analyzeCell 3 (some "00")) (by decide) (by decide) (by decide) (by decide)

theorem parseTransactionRow_cuenta (row : List (Option String))
    (cuenta nombre : String) (saldoIni : Option String) (r : RawTransaction)
    (hr : parseTransactionRow row cuenta nombre saldoIni = some r) :
    r.cuenta_contable = cuenta :=
  (parseTransactionRow_some row cuenta nombre saldoIni r hr).2.2.2.2.2

theorem extractStep_invariant (st : ReaderState) (row : List (Option String))
    (hinv : ∀ r ∈ st.records, r.cuenta_contable ≠ "") :
    ∀ r ∈ (extractStep st row).records, r.cuenta_contable ≠ "" := by
  intro r hmem
  unfold extractStep at hmem
  dsimp only [] at hmem
  split_ifs at hmem with h1 h2 h3 h4 h5
  · exact hinv r hmem
  · exact hinv r hmem
  · exact hinv r hmem
  · exact hinv r hmem
  · exact hinv r hmem
  · cases hcta : st.cuenta with
    | none => rw [hcta] at hmem; exact hinv r hmem
    | some cta =>
      rw [hcta] at hmem
      dsimp only [] at hmem
      cases hp : parseTransactionRow row cta (st.nombre.getD "") st.saldo with
      | none => rw [hp] at hmem; exact hinv r hmem
      | some rec =>
        rw [hp] at hmem
        dsimp only [] at hmem
        rcases List.mem_append.mp hmem with hA | hB
        · exact hinv r hA
        · have hrr : r = rec := by simpa using hB
          subst hrr
          rw [parseTransactionRow_cuenta row cta (st.nombre.getD "") st.saldo r hp]
          intro hcontra
          apply h5
          rw [hcta, hcontra]
          rfl

theorem extractFold_invariant (rows : List (List (Option String))) :
    ∀ (st : ReaderState), (∀ r ∈ st.records, r.cuenta_contable ≠ "") →
      ∀ r ∈ (rows.foldl extractStep st).records, r.cuenta_contable ≠ "" := by
  induction rows with
  | nil => intro st h; exact h
  | cons row rest ih =>
    intro st h
    exact ih (extractStep st row) (extractStep_invariant st row h)

/-- C3: every transaction record emitted by the sheet reader carries a
non-empty account code — the row-classification loop parses a row as a
transaction only while a "CUENTA CONTABLE:" marker has set a non-empty
current account code, and rows seen before the first marker yield no
record. -/
theorem reader_account_invariant (raw : List (List (Option String)))
    (headerIdx : Nat) :
    ∀ r ∈ extractTransactions raw headerIdx, r.cuenta_contable ≠ "" := by
  intro r hmem
  unfold extractTransactions at hmem
  dsimp only [] at hmem
  exact extractFold_invariant _ _ (by intro x hx; cases hx) r hmem

/-- Witness for C3: the record extracted from a concrete grid carries the
account code set by its "CUENTA CONTABLE:" marker row. -/
theorem reader_account_invariant_witness :
    ({ cuenta_contable := "1234", nombre_cuenta := "CAJA",
       fecha := "01/01/2024", poliza := "P-1", beneficiario := "",
       descripcion := "PAGO X", orden_pago := "", saldo_inicial := "",
       cargos := "", abonos := "1,500.00", saldo_final := "200.00" } :
      RawTransaction).cuenta_contable ≠ "" :=
  reader_account_invariant
    [[some "Fecha", some "Poliza", some "Saldo"],
     [some "CUENTA CONTABLE: 1234 - CAJA"],
     [some "01/01/2024", some "P-1", some "PAGO X", some "1,500.00",
      some "200.00"]] 0 _ (by decide)

theorem getD_take (l : List (List (Option String))) (n j : Nat) (h : j < n) :
    (l.take n).getD j [] = l.getD j [] := by
  induction l generalizing n j with
  | nil => simp
  | cons a t ih =>
    cases n with
    | zero => omega
    | succ m =>
      cases j with
      | zero => simp
      | succ i =>
        simp only [List.take_succ_cons, List.getD_cons_succ]
        exact ih m i (by omega)

theorem detectHeaderAux_some (l : List (List (Option String))) :
    ∀ (i k : Nat), detectHeaderAux l i = some k ↔
      (i ≤ k ∧ k - i < l.length ∧ headerPred (l.getD (k - i) []) = true ∧
       ∀ j < k - i, headerPred (l.getD j []) = false) := by
  induction l with
  | nil =>
    intro i k
    simp [detectHeaderAux]
  | cons r rest ih =>
    intro i k
    unfold detectHeaderAux
    by_cases hp : headerPred r = true
    · rw [if_pos hp]
      constructor
      · intro h
        injection h with h
        subst h
        refine ⟨Nat.le_refl i, ?_, ?_, ?_⟩
        · simp
        · simpa using hp
        · intro j hj; omega
      · rintro ⟨h1, h2, h3, h4⟩
        by_cases hik : k = i
        · subst hik; rfl
        · have h0 : 0 < k - i := by omega
          have := h4 0 h0
          rw [List.getD_cons_zero] at this
          rw [hp] at this
          cases this
    · rw [if_neg hp]
      have hp' : headerPred r = false := Bool.eq_false_iff.mpr hp
      rw [ih (i + 1) k]
      constructor
      · rintro ⟨h1, h2, h3, h4⟩
        refine ⟨by omega, ?_, ?_, ?_⟩
        · simp only [List.length_cons]; omega
        · have hki : k - i = (k - (i + 1)) + 1 := by omega
          rw [hki, List.getD_cons_succ]
          exact h3
        · intro j hj
          cases j with
          | zero => rw [List.getD_cons_zero]; exact hp'
          | succ j2 =>
            rw [List.getD_cons_succ]
            exact h4 j2 (by omega)
      · rintro ⟨h1, h2, h3, h4⟩
        have hik : i < k := by
          by_contra hnot
          have hz : k - i = 0 := by omega
          rw [hz, List.getD_cons_zero, hp'] at h3
          cases h3
        refine ⟨by omega, ?_, ?_, ?_⟩
        · simp only [List.length_cons] at h2; omega
        · have hki : k - i = (k - (i + 1)) + 1 := by omega
          rw [hki, List.getD_cons_succ] at h3
          exact h3
        · intro j hj
          have := h4 (j + 1) (by omega)
          rw [List.getD_cons_succ] at this
          exact this

/-- C5: the header row is the first among the first 20 rows whose
concatenated lower-cased cell text contains "fecha" together with "poliza" or
"saldo"; when no row within the first 20 qualifies, or the grid has fewer
than 2 rows, the read returns an empty record list (soft failure, no
exception). -/
theorem header_detection (raw : List (List (Option String))) :
    (∀ i : Nat, detectHeaderRow raw = some i ↔
      (i < min 20 raw.length ∧ headerPred (raw.getD i []) = true ∧
       ∀ j < i, headerPred (raw.getD j []) = false)) ∧
    ((detectHeaderRow raw = none ∨ raw.length < 2) →
      read_excel_file raw = []) := by
  constructor
  · intro i
    unfold detectHeaderRow
    rw [detectHeaderAux_some (raw.take 20) 0 i]
    have hlen : (raw.take 20).length = min 20 raw.length := by simp
    simp only [Nat.sub_zero, Nat.zero_le, true_and]
    constructor
    · rintro ⟨h2, h3, h4⟩
      rw [hlen] at h2
      refine ⟨h2, ?_, ?_⟩
      · rw [← getD_take raw 20 i (by omega)]; exact h3
      · intro j hj
        rw [← getD_take raw 20 j (by omega)]
        exact h4 j hj
    · rintro ⟨h2, h3, h4⟩
      rw [hlen]
      refine ⟨h2, ?_, ?_⟩
      · rw [getD_take raw 20 i (by omega)]; exact h3
      · intro j hj
        rw [getD_take raw 20 j (by omega)]
        exact h4 j hj
  · intro h
    unfold read_excel_file
    rcases h with h | h
    · by_cases h2 : raw.length < 2
      · rw [if_pos h2]
      · rw [if_neg h2, h]
    · rw [if_pos h]

/-- Witness for C5: a concrete grid with no qualifying header row within its
rows reads to the empty record list. -/
theorem header_detection_witness :
    read_excel_file [[some "nada"], [some "x", some "y"], [some "z"]] = [] :=
  (header_detection [[some "nada"], [some "x", some "y"], [some "z"]]).2
    (Or.inl (by decide))

/-- C6: when zero input files yield records, `process_files` marks the batch
failed (estado "error") with a message listing the failed file names, raises
the error to its caller, and persists no transaction records. -/
theorem zero_files_hard_failure (reads : List (String × List RawTransaction))
    (h : ∀ p ∈ reads, p.2 = []) :
    (processFiles reads).lote.estado = "error" ∧
    (processFiles reads).lote.mensaje =
      "ValueError: " ++ noFilesMsg (reads.map Prod.fst) ∧
    (processFiles reads).result =
      Except.error (noFilesMsg (reads.map Prod.fst)) ∧
    (processFiles reads).inserted = [] := by
  have hframes : reads.filter (fun p => !p.2.isEmpty) = [] := by
    rw [List.filter_eq_nil_iff]
    intro p hp
    rw [h p hp]
    simp
  have hfall : reads.filter (fun p => p.2.isEmpty) = reads := by
    rw [List.filter_eq_self]
    intro p hp
    rw [h p hp]
    rfl
  unfold processFiles
  rw [hframes, hfall]
  exact ⟨rfl, rfl, rfl, rfl⟩

/-- Witness for C6: a concrete run in which both files yield no records ends
with the batch in the "error" state. -/
theorem zero_files_hard_failure_witness :
    (processFiles [("a.xlsx", []), ("b.xlsx", [])]).lote.estado = "error" :=
  (zero_files_hard_failure [("a.xlsx", []), ("b.xlsx", [])] (by decide)).1

theorem dedupFirst_const (c : String) : ∀ (l : List String), l ≠ [] →
    (∀ x ∈ l, x = c) → dedupFirst l = [c] := by
  intro l
  induction l with
  | nil => intro h; cases h rfl
  | cons a t ih =>
    intro _ hall
    have ha : a = c := hall a (by simp)
    subst ha
    unfold dedupFirst
    have hfil : t.filter (fun x => decide (x ≠ a)) = [] := by
      rw [List.filter_eq_nil_iff]
      intro x hx
      have hx2 := hall x (by simp [hx])
      simp [hx2]
    rw [hfil]
    simp [dedupFirst]

theorem accountIndices_all (d : List NumTrans) (c : String)
    (hall : ∀ r ∈ d, r.cuenta_contable = c) :
    accountIndices d c = List.range d.length := by
  unfold accountIndices
  rw [List.filter_eq_self]
  intro i hi
  have hilt : i < d.length := List.mem_range.mp hi
  rw [List.getElem?_eq_getElem hilt]
  dsimp only []
  rw [hall d[i] (List.getElem_mem hilt)]
  simp

theorem balanceLoop_go (cnt : Nat) :
    ∀ (d : List NumTrans) (k j : Nat) (s : ℚ), j ≠ 0 → k + cnt = d.length →
      ((List.range' k cnt).foldl balanceStep (d, j, s)).1 =
        d.take k ++ chainFrom s (d.drop k) := by
  induction cnt with
  | zero =>
    intro d k j s hj hk
    rw [List.take_of_length_le (by omega), List.drop_eq_nil_of_le (by omega)]
    simp [chainFrom]
  | succ n ih =>
    intro d k j s hj hk
    have hklt : k < d.length := by omega
    rw [List.range'_succ]
    simp only [List.foldl_cons]
    set r := d[k] with hrdef
    set s2 := s + r.cargos - r.abonos with hs2def
    set r2 : NumTrans := { r with saldo_inicial := s, saldo_final := s2 } with hr2def
    have hstep : balanceStep (d, j, s) k = (d.set k r2, j + 1, s2) := by
      unfold balanceStep
      rw [List.getElem?_eq_getElem hklt]
      dsimp only []
      rw [if_neg hj]
    rw [hstep]
    rw [ih (d.set k r2) (k + 1) (j + 1) s2 (by omega)
      (by rw [List.length_set]; omega)]
    have hset : d.set k r2 = d.take k ++ r2 :: d.drop (k + 1) := by
      rw [List.set_eq_take_append_cons_drop, if_pos hklt]
    have hlen : (d.take k).length = k := by
      rw [List.length_take]; omega
    have htake : (d.take k ++ r2 :: d.drop (k + 1)).take (k + 1) =
        d.take k ++ [r2] := by
      rw [List.take_append_eq_append_take, hlen,
        List.take_of_length_le (by rw [hlen]; omega)]
      have h1 : k + 1 - k = 1 := by omega
      rw [h1]
      simp
    have hdrop : (d.take k ++ r2 :: d.drop (k + 1)).drop (k + 1) =
        d.drop (k + 1) := by
      rw [List.drop_append_eq_append_drop, hlen,
        List.drop_eq_nil_of_le (by rw [hlen]; omega)]
      have h1 : k + 1 - k = 1 := by omega
      rw [h1]
      simp
    rw [hset, htake, hdrop]
    rw [List.drop_eq_getElem_cons hklt, ← hrdef]
    have hchain : chainFrom s (r :: d.drop (k + 1)) =
        r2 :: chainFrom s2 (d.drop (k + 1)) := rfl
    rw [hchain]
    simp [List.append_assoc]

theorem processCuenta_single (d : List NumTrans) (c : String) (hne : d ≠ [])
    (hall : ∀ r ∈ d, r.cuenta_contable = c) :
    processCuenta d c = chainAll d := by
  unfold processCuenta
  rw [accountIndices_all d c hall]
  cases d with
  | nil => cases hne rfl
  | cons r0 t =>
    have hrange : List.range (r0 :: t).length = 0 :: List.range' 1 t.length := by
      simp [List.range_eq_range', List.range'_succ]
    rw [hrange]
    simp only [List.foldl_cons]
    set s0 := r0.saldo_inicial + r0.cargos - r0.abonos with hs0def
    set r0f : NumTrans := { r0 with saldo_final := s0 } with hr0fdef
    have hstep : balanceStep (r0 :: t, 0, 0) 0 = ((r0 :: t).set 0 r0f, 1, s0) := by
      unfold balanceStep
      rw [List.getElem?_eq_getElem (by simp)]
      dsimp only []
      rw [if_pos rfl]
      simp only [List.getElem_cons_zero]
    rw [hstep]
    have hset0 : (r0 :: t).set 0 r0f = r0f :: t := rfl
    rw [hset0]
    rw [balanceLoop_go t.length (r0f :: t) 1 1 s0 (by omega) (by simp; omega)]
    simp only [List.take_succ_cons, List.take_zero, List.drop_succ_cons,
      List.drop_zero]
    have hca : chainAll (r0 :: t) = r0f :: chainFrom s0 t := rfl
    rw [hca]
    simp

theorem chainFrom_map_sf : ∀ (l : List NumTrans) (s : ℚ),
    chainFrom s (l.map (fun r => { r with saldo_final := 0 })) =
      chainFrom s l := by
  intro l
  induction l with
  | nil => intro s; rfl
  | cons x t ih =>
    intro s
    simp only [List.map_cons, chainFrom]
    rw [ih]

theorem chainAll_map_sf (l : List NumTrans) :
    chainAll (l.map (fun r => { r with saldo_final := 0 })) = chainAll l := by
  cases l with
  | nil => rfl
  | cons x t =>
    simp only [List.map_cons, chainAll]
    rw [chainFrom_map_sf]

theorem calculateBalances_single (df : List NumTrans) (c : String)
    (hne : df ≠ []) (hall : ∀ r ∈ df, r.cuenta_contable = c) :
    calculateBalances df = chainAll df := by
  unfold calculateBalances
  dsimp only []
  have hmapne : df.map (fun r => { r with saldo_final := 0 }) ≠ [] := by
    intro h
    have hl := congrArg List.length h
    simp only [List.length_map, List.length_nil] at hl
    exact hne (List.length_eq_zero.mp hl)
  have hmall : ∀ r ∈ df.map (fun r => { r with saldo_final := 0 }),
      r.cuenta_contable = c := by
    intro r hr
    rcases List.mem_map.mp hr with ⟨x, hx, rfl⟩
    exact hall x hx
  have hcue : dedupFirst ((df.map (fun r => { r with saldo_final := 0 })).map
      (fun r => r.cuenta_contable)) = [c] := by
    apply dedupFirst_const
    · intro h
      have hl := congrArg List.length h
      simp only [List.length_map, List.length_nil] at hl
      exact hne (List.length_eq_zero.mp hl)
    · intro x hx
      rcases List.mem_map.mp hx with ⟨r, hr, rfl⟩
      exact hmall r hr
  rw [hcue]
  simp only [List.foldl_cons, List.foldl_nil]
  rw [processCuenta_single _ c hmapne hmall]
  exact chainAll_map_sf df

theorem chainFrom_length : ∀ (l : List NumTrans) (s : ℚ),
    (chainFrom s l).length = l.length := by
  intro l
  induction l with
  | nil => intro s; rfl
  | cons x t ih =>
    intro s
    simp only [chainFrom, List.length_cons, ih]

theorem chainAll_length (l : List NumTrans) :
    (chainAll l).length = l.length := by
  cases l with
  | nil => rfl
  | cons x t => simp only [chainAll, List.length_cons, chainFrom_length]

theorem chainFrom_rel : ∀ (l : List NumTrans) (s : ℚ) (i : Nat)
    (a b ri : NumTrans),
    (chainFrom s l)[i]? = some a → (chainFrom s l)[i + 1]? = some b →
    l[i + 1]? = some ri →
    b.saldo_inicial = a.saldo_final ∧
    b.saldo_final = a.saldo_final + ri.cargos - ri.abonos := by
  intro l
  induction l with
  | nil =>
    intro s i a b ri ha hb hr
    simp [chainFrom] at ha
  | cons x t ih =>
    intro s i a b ri ha hb hr
    simp only [chainFrom] at ha hb
    cases i with
    | zero =>
      rw [List.getElem?_cons_zero] at ha
      rw [List.getElem?_cons_succ] at hb
      rw [List.getElem?_cons_succ] at hr
      injection ha with ha
      cases t with
      | nil => simp [chainFrom] at hb
      | cons y t2 =>
        simp only [chainFrom] at hb
        rw [List.getElem?_cons_zero] at hb hr
        injection hb with hb
        injection hr with hr
        subst ha hb hr
        exact ⟨rfl, rfl⟩
    | succ i2 =>
      rw [List.getElem?_cons_succ] at ha hb hr
      exact ih (s + x.cargos - x.abonos) i2 a b ri ha hb hr

theorem chainAll_rel (l : List NumTrans) (i : Nat) (ri ri' pr : NumTrans)
    (hr : l[i + 1]? = some ri) (hb : (chainAll l)[i + 1]? = some ri')
    (ha : (chainAll l)[i]? = some pr) :
    ri'.saldo_inicial = pr.saldo_final ∧
    ri'.saldo_final = pr.saldo_final + ri.cargos - ri.abonos := by
  cases l with
  | nil => simp at hr
  | cons x t =>
    simp only [chainAll] at hb ha
    cases i with
    | zero =>
      rw [List.getElem?_cons_zero] at ha
      rw [List.getElem?_cons_succ] at hb
      rw [List.getElem?_cons_succ] at hr
      injection ha with ha
      cases t with
      | nil => simp at hr
      | cons y t2 =>
        simp only [chainFrom] at hb
        rw [List.getElem?_cons_zero] at hb hr
        injection hb with hb
        injection hr with hr
        subst ha hb hr
        exact ⟨rfl, rfl⟩
    | succ i2 =>
      rw [List.getElem?_cons_succ] at ha hb hr
      exact chainFrom_rel t (x.saldo_inicial + x.cargos - x.abonos) i2 pr ri' ri
        ha hb hr

theorem chainAll_head (l : List NumTrans) (r0 r0' : NumTrans)
    (h0 : l[0]? = some r0) (h0' : (chainAll l)[0]? = some r0') :
    r0'.saldo_inicial = r0.saldo_inicial ∧
    r0'.saldo_final = r0.saldo_inicial + r0.cargos - r0.abonos := by
  cases l with
  | nil => simp at h0
  | cons x t =>
    rw [List.getElem?_cons_zero] at h0
    simp only [chainAll] at h0'
    rw [List.getElem?_cons_zero] at h0'
    injection h0 with h0
    injection h0' with h0'
    subst h0 h0'
    exact ⟨rfl, rfl⟩

/-- C1: on a single-account record list processed in original order, the
balance pass leaves the first row's opening balance unchanged and sets its
closing balance to opening + debit − credit; every later row's opening
balance is overwritten with the previous row's closing balance, and its
closing balance is the previous closing plus its debit minus its credit. -/
theorem balance_chain (df : List NumTrans) (c : String) (hne : df ≠ [])
    (hall : ∀ r ∈ df, r.cuenta_contable = c) :
    (calculateBalances df).length = df.length ∧
    (∀ r0 r0' : NumTrans, df[0]? = some r0 →
      (calculateBalances df)[0]? = some r0' →
      r0'.saldo_inicial = r0.saldo_inicial ∧
      r0'.saldo_final = r0.saldo_inicial + r0.cargos - r0.abonos) ∧
    (∀ (i : Nat) (ri ri' pr : NumTrans), df[i + 1]? = some ri →
      (calculateBalances df)[i + 1]? = some ri' →
      (calculateBalances df)[i]? = some pr →
      ri'.saldo_inicial = pr.saldo_final ∧
      ri'.saldo_final = pr.saldo_final + ri.cargos - ri.abonos) := by
  rw [calculateBalances_single df c hne hall]
  exact ⟨chainAll_length df,
    fun r0 r0' h0 h0' => chainAll_head df r0 r0' h0 h0',
    fun i ri ri' pr hr hb ha => chainAll_rel df i ri ri' pr hr hb ha⟩

/-- Witness for C1: the balance pass applied to a concrete two-row
single-account list preserves the row count. -/
theorem balance_chain_witness :
    (calculateBalances
      [{ archivo_origen := "a.xlsx", cuenta_contable := "X",
         nombre_cuenta := "N", fecha := "01/01/2024", poliza := "P1",
         beneficiario := "", descripcion := "", orden_pago := "",
         componentes := parse_cuenta_contable "X", saldo_inicial := 100,
         cargos := 50, abonos := 0, saldo_final := 0 },
       { archivo_origen := "a.xlsx", cuenta_contable := "X",
         nombre_cuenta := "N", fecha := "02/01/2024", poliza := "P2",
         beneficiario := "", descripcion := "", orden_pago := "",
         componentes := parse_cuenta_contable "X", saldo_inicial := 0,
         cargos := 0, abonos := 20, saldo_final := 0 }]).length =
    ([{ archivo_origen := "a.xlsx", cuenta_contable := "X",
        nombre_cuenta := "N", fecha := "01/01/2024", poliza := "P1",
        beneficiario := "", descripcion := "", orden_pago := "",
        componentes := parse_cuenta_contable "X", saldo_inicial := 100,
        cargos := 50, abonos := 0, saldo_final := 0 },
      { archivo_origen := "a.xlsx", cuenta_contable := "X",
        nombre_cuenta := "N", fecha := "02/01/2024", poliza := "P2",
        beneficiario := "", descripcion := "", orden_pago := "",
        componentes := parse_cuenta_contable "X", saldo_inicial := 0,
        cargos := 0, abonos := 20, saldo_final := 0 }] :
      List NumTrans).length :=
  (balance_chain _ "X" (by simp) (by decide)).1

end Siif
